import Mathlib

/-!
# Verification of the cyberdeck-25 firmware input-state engine

Shallow embedding of the input-sampling logic of `socket_server.py` and
`inputs_debug.py` (the `mac_simulator.py` entry point is a keyboard-driven
stand-in for the hardware and plays no role in the claims).

Modelling conventions:
* GPIO levels are `Nat` (the Python code receives ints and compares them to
  `GPIO.HIGH = 1` / `GPIO.LOW = 0`).
* A read that can raise (`GPIO.input`, sysfs reads) is modelled as an
  `Option Nat` argument: `none` means the read raised.  The sysfs switch
  reads return the file contents as a string and `'Error'` on exception,
  exactly as `SwitchMonitor.read_gpio` does, so they stay `String`.
* Timestamps (`time.time()` values) are exact rationals `ℚ`; the Python
  floats are an approximation of real-valued time and none of the claims
  depends on float rounding.
* `socketio.emit(...)` is modelled by appending an `Event` value to the list
  returned by each call; the wall-clock `timestamp` field attached at
  emission is not part of any claim and is omitted.
-/

set_option autoImplicit false

namespace Firmware

/-- Wire events emitted by `socket_server.py` (`key_change`, `switch_change`,
`encoder_change`, `encoder_button_press`).  `active = none` models Python's
`None` status produced by a failed read. -/
inductive Event
  | keyChange (active : Option Bool)
  | switchChange (switch : String) (active : Option Bool)
  | encoderChange (encoder_id : Nat) (value : Int) (direction : String)
  | encoderButtonPress (encoder_id : Nat)
  deriving DecidableEq, Repr

/-- Holds exactly for the events built by the `encoder_button_press` emit. -/
def Event.isEncoderButtonPress : Event → Bool
  | Event.encoderButtonPress _ => true
  | _ => false

/-- Holds exactly for the events built by the `encoder_change` emit. -/
def Event.isEncoderChange : Event → Bool
  | Event.encoderChange _ _ _ => true
  | _ => false

/-! ## ButtonMonitor (socket_server.py lines 22-52) -/

/-- State of `ButtonMonitor`: `last_state` starts as `None` in `__init__`. -/
structure ButtonMonitor where
  last_state : Option Bool
  deriving DecidableEq, Repr

/-- The constructor `ButtonMonitor.__init__`: `self.last_state = None`. -/
def ButtonMonitor.init : ButtonMonitor := { last_state := none }

/-- The method `ButtonMonitor.get_button_status`: `True` when the line reads HIGH (1),
`False` when LOW, `None` when `GPIO.input` raises. -/
def get_button_status (read : Option Nat) : Option Bool :=
  match read with
  | some state => some (state == 1)
  | none => none

/-- The method `ButtonMonitor.check_and_emit`: emit `key_change` whenever the freshly
computed status differs from `last_state`, and store the new status. -/
def ButtonMonitor.check_and_emit (m : ButtonMonitor) (read : Option Nat) :
    ButtonMonitor × List Event :=
  let current_state := get_button_status read
  if current_state ≠ m.last_state then
    ({ last_state := current_state }, [Event.keyChange current_state])
  else
    (m, [])

/-! ## SwitchMonitor (socket_server.py lines 54-131) -/

/-- Per-switch record kept in `last_states`: the raw sysfs string and the
derived status (`True`/`False`/`None`). -/
structure SwitchState where
  value : String
  status : Option Bool
  deriving DecidableEq, Repr

/-- One sysfs read result per switch line, in the dict order GPIO 18, 20, 21.
The string is the stripped file contents, or `'Error'` when the read raised
(`SwitchMonitor.read_gpio`). -/
structure SwitchReads where
  g18 : String
  g20 : String
  g21 : String
  deriving DecidableEq, Repr

/-- The three per-switch records, dict order GPIO 18, 20, 21. -/
structure SwitchStates where
  g18 : SwitchState
  g20 : SwitchState
  g21 : SwitchState
  deriving DecidableEq, Repr

/-- Status derivation in `SwitchMonitor.get_switch_states`:
`"1"` ↦ released (`True`), `"0"` ↦ pressed (`False`), anything else ↦ `None`. -/
def switch_status (value : String) : Option Bool :=
  if value = "1" then some true
  else if value = "0" then some false
  else none

/-- The method `SwitchMonitor.get_switch_states` applied to the three reads. -/
def get_switch_states (r : SwitchReads) : SwitchStates :=
  { g18 := { value := r.g18, status := switch_status r.g18 }
    g20 := { value := r.g20, status := switch_status r.g20 }
    g21 := { value := r.g21, status := switch_status r.g21 } }

/-- State of `SwitchMonitor`. -/
structure SwitchMonitor where
  last_states : SwitchStates
  deriving DecidableEq, Repr

/-- The method `SwitchMonitor.check_and_emit`: for each pin (dict order 18, 20, 21,
colors green, blue, red) emit `switch_change` when the status changed, then
replace `last_states` wholesale. -/
def SwitchMonitor.check_and_emit (m : SwitchMonitor) (r : SwitchReads) :
    SwitchMonitor × List Event :=
  let current_states := get_switch_states r
  let e18 :=
    if current_states.g18.status ≠ m.last_states.g18.status then
      [Event.switchChange "green" current_states.g18.status]
    else []
  let e20 :=
    if current_states.g20.status ≠ m.last_states.g20.status then
      [Event.switchChange "blue" current_states.g20.status]
    else []
  let e21 :=
    if current_states.g21.status ≠ m.last_states.g21.status then
      [Event.switchChange "red" current_states.g21.status]
    else []
  ({ last_states := current_states }, e18 ++ e20 ++ e21)

/-! ## RotaryEncoder (socket_server.py lines 133-250) -/

/-- The rotation debounce window `self.encoder_debounce_delay = 0.001` (1 ms). -/
def encoder_debounce_delay : ℚ := 1 / 1000

/-- The press debounce window `self.button_debounce_delay = 0.2` (200 ms). -/
def button_debounce_delay : ℚ := 1 / 5

/-- Python truthiness of `self.pin_button` as used in
`if self.pin_button:` — `None` and `0` are falsy. -/
def pin_truthy : Option Nat → Bool
  | none => false
  | some p => p ≠ 0

/-- State of `socket_server.RotaryEncoder` (the `__init__` fields that
`update` reads or writes). -/
structure RotaryEncoder where
  encoder_id : Nat
  pin_a : Nat
  pin_b : Nat
  pin_button : Option Nat
  counter : Int
  last_counter : Int
  last_a : Nat
  last_b : Nat
  last_button : Nat
  last_encoder_time : ℚ
  last_button_time : ℚ
  deriving DecidableEq, Repr

/-- The constructor `RotaryEncoder.__init__(encoder_id, pin_a, pin_b, pin_button, socketio)`:
counters at 0, `last_button = 1`, times at 0. -/
def RotaryEncoder.init (encoder_id pin_a pin_b : Nat) (pin_button : Option Nat) :
    RotaryEncoder :=
  { encoder_id := encoder_id, pin_a := pin_a, pin_b := pin_b
    pin_button := pin_button
    counter := 0, last_counter := 0
    last_a := 0, last_b := 0, last_button := 1
    last_encoder_time := 0, last_button_time := 0 }

/-- The three `GPIO.input` reads at the top of `RotaryEncoder.update`;
`none` = the read raised. -/
structure EncoderReads where
  a : Option Nat
  b : Option Nat
  button : Option Nat
  deriving DecidableEq, Repr

/-- The method `socket_server.RotaryEncoder.update(current_time)`.

The whole body runs inside `try/except`; the only statements that can raise
are the three `GPIO.input` calls at the top (before any mutation), so a
failed read leaves the state unchanged and emits nothing.
`current_button` is `GPIO.input(pin_button) if self.pin_button else 1`. -/
def RotaryEncoder.update (e : RotaryEncoder) (current_time : ℚ)
    (r : EncoderReads) : RotaryEncoder × List Event :=
  match r.a, r.b, (if pin_truthy e.pin_button then r.button else some 1) with
  | some current_a, some current_b, some current_button =>
    -- quadrature logic with debouncing (lines 183-204)
    let counter1 : Int :=
      if current_a ≠ e.last_a ∧
          current_time - e.last_encoder_time > encoder_debounce_delay then
        if current_a = 1 then
          if current_b = 0 then e.counter + 1 else e.counter - 1
        else
          if current_b = 1 then e.counter + 1 else e.counter - 1
      else e.counter
    let enc_time1 : ℚ :=
      if current_a ≠ e.last_a ∧
          current_time - e.last_encoder_time > encoder_debounce_delay then
        current_time
      else e.last_encoder_time
    let last_a1 : Nat := if current_a ≠ e.last_a then current_a else e.last_a
    let last_b1 : Nat := current_b
    -- button state check (lines 206-215); `button_pressed` is the same
    -- condition as the acceptance branch that sets it to True
    let counter2 : Int :=
      if pin_truthy e.pin_button ∧ current_button = 0 ∧ e.last_button = 1 ∧
          current_time - e.last_button_time > button_debounce_delay then 0
      else counter1
    let btn_time1 : ℚ :=
      if pin_truthy e.pin_button ∧ current_button = 0 ∧ e.last_button = 1 ∧
          current_time - e.last_button_time > button_debounce_delay then
        current_time
      else e.last_button_time
    let last_button1 : Nat :=
      if pin_truthy e.pin_button then current_button else e.last_button
    -- emit if counter changed (lines 217-227)
    let ev_change : List Event :=
      if counter2 ≠ e.last_counter then
        [Event.encoderChange e.encoder_id counter2
          (if counter2 - e.last_counter > 0 then "right" else "left")]
      else []
    let last_counter1 : Int :=
      if counter2 ≠ e.last_counter then counter2 else e.last_counter
    -- emit if button was pressed (lines 229-234)
    let ev_press : List Event :=
      if pin_truthy e.pin_button ∧ current_button = 0 ∧ e.last_button = 1 ∧
          current_time - e.last_button_time > button_debounce_delay then
        [Event.encoderButtonPress e.encoder_id]
      else []
    ({ e with
        counter := counter2, last_counter := last_counter1
        last_a := last_a1, last_b := last_b1, last_button := last_button1
        last_encoder_time := enc_time1, last_button_time := btn_time1 },
      ev_change ++ ev_press)
  | _, _, _ => (e, [])

/-- The `FirmwareManager.setup_encoders` configuration list
`(encoder_id, pin_a, pin_b, pin_button)`; encoder 4 has no button. -/
def encoder_configs : List (Nat × Nat × Nat × Option Nat) :=
  [(3, 4, 17, some 19), (2, 27, 22, some 13), (1, 5, 6, some 26),
   (4, 23, 24, none)]

/-! ## The per-tick sampling pass (socket_server.py monitor_loop, lines 317-335)

One iteration of `FirmwareManager.monitor_loop` captures `current_time`,
checks the button, checks the switches, and updates every encoder in order;
the spec calls this pass `sample_tick`, returning the tick's events in
emission order. -/

/-- The mutable state `FirmwareManager` owns between loop iterations. -/
structure FirmwareState where
  button_monitor : ButtonMonitor
  switch_monitor : SwitchMonitor
  encoders : List RotaryEncoder
  deriving DecidableEq, Repr

/-- All raw reads consumed by one pass: the button line, the three switch
lines, and one `EncoderReads` per encoder (positional). -/
structure TickReads where
  button : Option Nat
  switches : SwitchReads
  encoders : List EncoderReads
  deriving DecidableEq, Repr

/-- The loop `for encoder in self.encoders: encoder.update(current_time)`, threading
the per-encoder reads positionally and concatenating emissions in order.
Encoders beyond the supplied reads are left untouched (their reads failed). -/
def update_encoders (current_time : ℚ) :
    List RotaryEncoder → List EncoderReads → List RotaryEncoder × List Event
  | e :: es, r :: rs =>
    let u := e.update current_time r
    let rest := update_encoders current_time es rs
    (u.1 :: rest.1, u.2 ++ rest.2)
  | es, _ => (es, [])

/-- One iteration of `FirmwareManager.monitor_loop`: button check, switch
check, then every encoder, events concatenated in emission order. -/
def sample_tick (s : FirmwareState) (current_time : ℚ) (r : TickReads) :
    FirmwareState × List Event :=
  let bu := s.button_monitor.check_and_emit r.button
  let sw := s.switch_monitor.check_and_emit r.switches
  let en := update_encoders current_time s.encoders r.encoders
  ({ button_monitor := bu.1, switch_monitor := sw.1, encoders := en.1 },
    bu.2 ++ sw.2 ++ en.2)

/-! ## Concrete states and quiescence predicates used by the theorems -/

/-- Concrete socket-server encoder for the C1 scenario: encoder 1
(pins A=5, B=6, button=26) with counter 5 already published
(`last_counter = 5`), button released, last accepted times 0. -/
def c1_enc : RotaryEncoder :=
  { RotaryEncoder.init 1 5 6 (some 26) with counter := 5, last_counter := 5 }

/-- Concrete socket-server encoder for the C7 scenario of the spec:
encoder 1 at counter 50 (already published), button released, last accepted
times 0. -/
def c7_enc : RotaryEncoder :=
  { RotaryEncoder.init 1 5 6 (some 26) with counter := 50, last_counter := 50 }

/-- Unchanged raw inputs for one encoder: phase A reads its stored
`last_a`, the button line (when the encoder has one) reads its stored
`last_button`, and the counter has already been published
(`counter = last_counter`, which holds after every completed `update`). -/
def EncoderQuiet (e : RotaryEncoder) (r : EncoderReads) : Prop :=
  e.counter = e.last_counter ∧ r.a = some e.last_a ∧
    (pin_truthy e.pin_button = true → r.button = some e.last_button)

/-- Pointwise `EncoderQuiet` for every encoder. -/
def EncodersQuiet : List RotaryEncoder → List EncoderReads → Prop
  | [], [] => True
  | e :: es, r :: rs => EncoderQuiet e r ∧ EncodersQuiet es rs
  | _, _ => False

/-- Identical, unchanged raw input levels for a whole tick: every monitor
reads back the status it already stores and every encoder is quiet. -/
def TickQuiet (s : FirmwareState) (r : TickReads) : Prop :=
  get_button_status r.button = s.button_monitor.last_state ∧
  switch_status r.switches.g18 = s.switch_monitor.last_states.g18.status ∧
  switch_status r.switches.g20 = s.switch_monitor.last_states.g20.status ∧
  switch_status r.switches.g21 = s.switch_monitor.last_states.g21.status ∧
  EncodersQuiet s.encoders r.encoders

/-- Concrete quiescent engine for the C8 witness: button released and
stored, all switches released and stored, one encoder (encoder 1) freshly
synchronized. -/
def c8_state : FirmwareState :=
  { button_monitor := { last_state := some true }
    switch_monitor :=
      { last_states :=
          { g18 := { value := "1", status := some true }
            g20 := { value := "1", status := some true }
            g21 := { value := "1", status := some true } } }
    encoders := [RotaryEncoder.init 1 5 6 (some 26)] }

/-- Raw reads matching `c8_state` exactly (nothing changed). -/
def c8_reads : TickReads :=
  { button := some 1
    switches := { g18 := "1", g20 := "1", g21 := "1" }
    encoders := [{ a := some 0, b := some 0, button := some 1 }] }

end Firmware

/-! ## RotaryEncoder of inputs_debug.py (lines 89-194)

The debug entry point's encoder differs from the socket server's in two ways
that matter to the claims: it clamps the counter at 0 after a quadrature
step (`if self.counter < 0: self.counter = 0`, lines 159-160), and it emits
nothing (no socket, no `last_counter`). -/

namespace InputsDebug

open Firmware (EncoderReads pin_truthy encoder_debounce_delay
  button_debounce_delay)

/-- State of `inputs_debug.RotaryEncoder` (the `__init__` fields `update`
reads or writes); no `last_counter`, since nothing is emitted. -/
structure RotaryEncoder where
  encoder_id : Nat
  pin_a : Nat
  pin_b : Nat
  pin_button : Option Nat
  counter : Int
  last_a : Nat
  last_b : Nat
  last_button : Nat
  last_encoder_time : ℚ
  last_button_time : ℚ
  deriving DecidableEq, Repr

/-- The constructor `inputs_debug.RotaryEncoder.__init__`. -/
def RotaryEncoder.init (encoder_id pin_a pin_b : Nat)
    (pin_button : Option Nat) : RotaryEncoder :=
  { encoder_id := encoder_id, pin_a := pin_a, pin_b := pin_b
    pin_button := pin_button
    counter := 0, last_a := 0, last_b := 0, last_button := 1
    last_encoder_time := 0, last_button_time := 0 }

/-- The method `inputs_debug.RotaryEncoder.update(current_time)`: same quadrature and
button logic as the socket server, plus the clamp
`if self.counter < 0: self.counter = 0` inside the accepted branch, and no
event emission. -/
def RotaryEncoder.update (e : RotaryEncoder) (current_time : ℚ)
    (r : EncoderReads) : RotaryEncoder :=
  match r.a, r.b, (if pin_truthy e.pin_button then r.button else some 1) with
  | some current_a, some current_b, some current_button =>
    let counter1 : Int :=
      if current_a ≠ e.last_a ∧
          current_time - e.last_encoder_time > encoder_debounce_delay then
        let stepped : Int :=
          if current_a = 1 then
            if current_b = 0 then e.counter + 1 else e.counter - 1
          else
            if current_b = 1 then e.counter + 1 else e.counter - 1
        -- Prevent counter from going negative (lines 158-160)
        if stepped < 0 then 0 else stepped
      else e.counter
    let enc_time1 : ℚ :=
      if current_a ≠ e.last_a ∧
          current_time - e.last_encoder_time > encoder_debounce_delay then
        current_time
      else e.last_encoder_time
    let last_a1 : Nat := if current_a ≠ e.last_a then current_a else e.last_a
    let last_b1 : Nat := current_b
    let counter2 : Int :=
      if pin_truthy e.pin_button ∧ current_button = 0 ∧ e.last_button = 1 ∧
          current_time - e.last_button_time > button_debounce_delay then 0
      else counter1
    let btn_time1 : ℚ :=
      if pin_truthy e.pin_button ∧ current_button = 0 ∧ e.last_button = 1 ∧
          current_time - e.last_button_time > button_debounce_delay then
        current_time
      else e.last_button_time
    let last_button1 : Nat :=
      if pin_truthy e.pin_button then current_button else e.last_button
    { e with
        counter := counter2
        last_a := last_a1, last_b := last_b1, last_button := last_button1
        last_encoder_time := enc_time1, last_button_time := btn_time1 }
  | _, _, _ => e

/-- A sequence of `update` calls (one per poll iteration). -/
def RotaryEncoder.run (e : RotaryEncoder) (ticks : List (ℚ × EncoderReads)) :
    RotaryEncoder :=
  ticks.foldl (fun s p => s.update p.1 p.2) e

end InputsDebug

/-! # Theorems -/

namespace Firmware

/-- C9: On the first tick after construction, whenever the button line
read succeeds, `ButtonMonitor.check_and_emit` emits a `key_change` event
regardless of the physical level and of whether anything changed, because
`last_state` is initialized to `None` and `None` differs from both `True`
and `False`. -/
theorem c9_first_tick_always_emits (level : Nat) :
    (ButtonMonitor.init.check_and_emit (some level)).2
      = [Event.keyChange (some (level == 1))] := by
  simp [ButtonMonitor.check_and_emit, ButtonMonitor.init, get_button_status]

/-- C10: An encoder constructed with `pin_button = None` (encoder 4 in
`setup_encoders`) never emits `encoder_button_press`, never resets the
counter via the button path (`last_button_time` never moves), and a single
`update` changes its counter only by a ±1 quadrature step or not at all. -/
theorem c10_buttonless_encoder (e : RotaryEncoder) (t : ℚ) (r : EncoderReads)
    (h : e.pin_button = none) :
    (e.update t r).2.countP Event.isEncoderButtonPress = 0 ∧
    (e.update t r).1.last_button_time = e.last_button_time ∧
    ((e.update t r).1.counter = e.counter ∨
      (e.update t r).1.counter = e.counter + 1 ∨
      (e.update t r).1.counter = e.counter - 1) := by
  have htr : pin_truthy e.pin_button = false := by rw [h]; rfl
  rcases r with ⟨ra, rb, rbtn⟩
  rcases ra with _ | a
  · simp [RotaryEncoder.update, htr]
  rcases rb with _ | b
  · simp [RotaryEncoder.update, htr]
  simp only [RotaryEncoder.update, htr, Bool.false_eq_true, if_false, ite_self,
    false_and, List.append_nil]
  refine ⟨?_, by trivial, ?_⟩
  · split_ifs <;> simp [List.countP_cons, Event.isEncoderButtonPress]
  · split_ifs <;> omega

/-- Witness for C10: encoder 4 from the `setup_encoders` configuration
`(4, 23, 24, None)` takes a forward step and emits no button press. -/
theorem c10_buttonless_encoder_witness :
    ((RotaryEncoder.init 4 23 24 none).update 1
        ⟨some 1, some 0, some 0⟩).2.countP Event.isEncoderButtonPress = 0 ∧
    ((RotaryEncoder.init 4 23 24 none).update 1
        ⟨some 1, some 0, some 0⟩).1.last_button_time
      = (RotaryEncoder.init 4 23 24 none).last_button_time ∧
    (((RotaryEncoder.init 4 23 24 none).update 1
        ⟨some 1, some 0, some 0⟩).1.counter
        = (RotaryEncoder.init 4 23 24 none).counter ∨
      ((RotaryEncoder.init 4 23 24 none).update 1
        ⟨some 1, some 0, some 0⟩).1.counter
        = (RotaryEncoder.init 4 23 24 none).counter + 1 ∨
      ((RotaryEncoder.init 4 23 24 none).update 1
        ⟨some 1, some 0, some 0⟩).1.counter
        = (RotaryEncoder.init 4 23 24 none).counter - 1) :=
  c10_buttonless_encoder (RotaryEncoder.init 4 23 24 none) 1
    ⟨some 1, some 0, some 0⟩ rfl

/-- C4: Quadrature decoding per `update` call (button line reads
released, i.e. 1, so the button path is inert): if the sampled phase A
equals `last_a`, the counter takes no step (B transitions alone never step);
if A changed and more than the encoder debounce window elapsed since the
last accepted edge, the step is +1 exactly on (A rising ∧ B = 0) or
(A falling ∧ B = 1), and −1 on (A rising ∧ B = 1) or (A falling ∧ B = 0). -/
theorem c4_quadrature_truth_table (e : RotaryEncoder) (t : ℚ) (a b : Nat)
    (ha2 : a < 2) (hb2 : b < 2) (hla2 : e.last_a < 2) :
    (a = e.last_a →
      (e.update t ⟨some a, some b, some 1⟩).1.counter = e.counter) ∧
    (a ≠ e.last_a → t - e.last_encoder_time > encoder_debounce_delay →
      (e.update t ⟨some a, some b, some 1⟩).1.counter =
        e.counter +
          (if (e.last_a = 0 ∧ a = 1 ∧ b = 0) ∨ (e.last_a = 1 ∧ a = 0 ∧ b = 1)
            then 1 else -1)) := by
  constructor
  · intro hsame
    simp [RotaryEncoder.update, ite_self, hsame]
  · intro hne htime
    simp only [RotaryEncoder.update, ite_self]
    simp only [ne_eq, hne, not_false_eq_true, true_and, if_pos htime,
      one_ne_zero, false_and, and_false, if_false]
    interval_cases a <;> interval_cases b <;>
      [skip; skip; skip; skip] <;>
      first
        | (have hla : e.last_a = 1 := by omega
           simp [hla, sub_eq_add_neg])
        | (have hla : e.last_a = 0 := by omega
           simp [hla, sub_eq_add_neg])

/-- Witness for C4 at the fresh encoder with A read unchanged (0): the
bound hypotheses are discharged concretely, the no-step branch applies and
the changed-A branch is vacuous at this instantiation. -/
theorem c4_quadrature_truth_table_witness :
    ((0 : Nat) < 2 ∧ (0 : Nat) < 2 ∧
        (RotaryEncoder.init 1 5 6 (some 26)).last_a < 2) ∧
    ((0 = (RotaryEncoder.init 1 5 6 (some 26)).last_a →
      ((RotaryEncoder.init 1 5 6 (some 26)).update 1
          ⟨some 0, some 0, some 1⟩).1.counter
        = (RotaryEncoder.init 1 5 6 (some 26)).counter) ∧
     (0 ≠ (RotaryEncoder.init 1 5 6 (some 26)).last_a →
      (1 : ℚ) - (RotaryEncoder.init 1 5 6 (some 26)).last_encoder_time
          > encoder_debounce_delay →
      ((RotaryEncoder.init 1 5 6 (some 26)).update 1
          ⟨some 0, some 0, some 1⟩).1.counter =
        (RotaryEncoder.init 1 5 6 (some 26)).counter +
          (if ((RotaryEncoder.init 1 5 6 (some 26)).last_a = 0 ∧ 0 = 1 ∧ 0 = 0)
              ∨ ((RotaryEncoder.init 1 5 6 (some 26)).last_a = 1 ∧ 0 = 0 ∧ 0 = 1)
            then 1 else -1))) :=
  ⟨⟨by decide, by decide, by decide⟩,
    c4_quadrature_truth_table (RotaryEncoder.init 1 5 6 (some 26)) 1 0 0
      (by decide) (by decide) (by decide)⟩

/-- C1 counterexample: At counter 5, an accepted button press edge at
`t = 1` (window 0.2 s since `last_button_time = 0`) resets the counter to 0
and emits the `encoder_button_press` event — but, contrary to the claim, the
same tick also emits an `encoder_change` event (value 0, direction "left")
for that reset-to-zero, because the `counter != last_counter` emit block
runs after the reset. -/
theorem c1_counterexample :
    0 < c1_enc.counter ∧
    (c1_enc.update 1 ⟨some 0, some 0, some 0⟩).2
      = [Event.encoderChange 1 0 "left", Event.encoderButtonPress 1] ∧
    (c1_enc.update 1 ⟨some 0, some 0, some 0⟩).1.counter = 0 ∧
    (c1_enc.update 1 ⟨some 0, some 0, some 0⟩).2.countP
        Event.isEncoderChange = 1 := by
  with_unfolding_all decide

/-- C1 amended: In any single `update` where the counter is positive
(and already published: `last_counter = counter`) and a debounced button
press edge is accepted by the 0.2 s window — whatever the concurrently
sampled phase levels are — the engine emits exactly one
`encoder_button_press`, resets the counter to 0, **and also emits exactly
one `encoder_change` (value 0, direction "left") for that same
reset-to-zero** — the tick's emissions are exactly those two events, in
that order (the reset runs after the quadrature step, so it overrides any
concurrent ±1 step before the emit block compares counters). -/
theorem c1_button_reset_events (e : RotaryEncoder) (t : ℚ) (a b btn : Nat)
    (hsync : e.last_counter = e.counter) (hpos : 0 < e.counter)
    (htr : pin_truthy e.pin_button = true)
    (hbtn : btn = 0) (hlast : e.last_button = 1)
    (hwin : t - e.last_button_time > button_debounce_delay) :
    (e.update t ⟨some a, some b, some btn⟩).2
      = [Event.encoderChange e.encoder_id 0 "left",
         Event.encoderButtonPress e.encoder_id] ∧
    (e.update t ⟨some a, some b, some btn⟩).1.counter = 0 := by
  subst hbtn
  simp only [RotaryEncoder.update, htr, if_true, ne_eq,
    not_true_eq_false, false_and, if_false, hlast, true_and, and_true,
    eq_self_iff_true, if_pos hwin]
  have hne : ¬ (0 : Int) = e.last_counter := by omega
  have hdir : ¬ (0 : Int) - e.last_counter > 0 := by omega
  rw [if_pos hne, if_neg hdir]
  rfl

/-- Witness for C1 amended, at the concrete scenario state `c1_enc`. -/
theorem c1_button_reset_events_witness :
    (c1_enc.update 1 ⟨some 0, some 0, some 0⟩).2
      = [Event.encoderChange c1_enc.encoder_id 0 "left",
         Event.encoderButtonPress c1_enc.encoder_id] ∧
    (c1_enc.update 1 ⟨some 0, some 0, some 0⟩).1.counter = 0 :=
  c1_button_reset_events c1_enc 1 0 0 0 (by decide) (by decide) (by decide)
    (by decide) (by decide) (by with_unfolding_all decide)

/-- C6: The encoder debounce window is measured from the last *accepted*
transition: on any observed A change, `last_a` is updated regardless of
acceptance; if more than the window elapsed since the last accepted edge the
change is accepted immediately (`last_encoder_time` jumps to now and the
counter steps), otherwise `last_encoder_time` keeps the last accepted
timestamp and the counter holds — so a rejected raw wiggle never postpones
future acceptance. -/
theorem c6_debounce_from_last_accepted (e : RotaryEncoder) (t : ℚ) (a b : Nat)
    (hne : a ≠ e.last_a) :
    (e.update t ⟨some a, some b, some 1⟩).1.last_a = a ∧
    (t - e.last_encoder_time > encoder_debounce_delay →
      (e.update t ⟨some a, some b, some 1⟩).1.last_encoder_time = t ∧
      (e.update t ⟨some a, some b, some 1⟩).1.counter ≠ e.counter) ∧
    (¬ t - e.last_encoder_time > encoder_debounce_delay →
      (e.update t ⟨some a, some b, some 1⟩).1.last_encoder_time
          = e.last_encoder_time ∧
      (e.update t ⟨some a, some b, some 1⟩).1.counter = e.counter) := by
  simp only [RotaryEncoder.update, ite_self]
  simp only [ne_eq, hne, not_false_eq_true, true_and, one_ne_zero, false_and,
    and_false, if_false]
  refine ⟨rfl, fun htime => ?_, fun htime => ?_⟩
  · rw [if_pos htime, if_pos htime]
    exact ⟨rfl, by split_ifs <;> omega⟩
  · rw [if_neg htime, if_neg htime]
    exact ⟨rfl, rfl⟩

/-- Witness for C6: a raw A toggle at `t = 1` on a freshly initialized
encoder (last accepted edge at time 0) is accepted immediately. -/
theorem c6_debounce_from_last_accepted_witness :
    (1 : Nat) ≠ (RotaryEncoder.init 1 5 6 (some 26)).last_a ∧
    (((RotaryEncoder.init 1 5 6 (some 26)).update 1
        ⟨some 1, some 0, some 1⟩).1.last_a = 1 ∧
      ((1 : ℚ) - (RotaryEncoder.init 1 5 6 (some 26)).last_encoder_time
          > encoder_debounce_delay →
        ((RotaryEncoder.init 1 5 6 (some 26)).update 1
            ⟨some 1, some 0, some 1⟩).1.last_encoder_time = 1 ∧
        ((RotaryEncoder.init 1 5 6 (some 26)).update 1
            ⟨some 1, some 0, some 1⟩).1.counter
          ≠ (RotaryEncoder.init 1 5 6 (some 26)).counter) ∧
      (¬ (1 : ℚ) - (RotaryEncoder.init 1 5 6 (some 26)).last_encoder_time
          > encoder_debounce_delay →
        ((RotaryEncoder.init 1 5 6 (some 26)).update 1
            ⟨some 1, some 0, some 1⟩).1.last_encoder_time
          = (RotaryEncoder.init 1 5 6 (some 26)).last_encoder_time ∧
        ((RotaryEncoder.init 1 5 6 (some 26)).update 1
            ⟨some 1, some 0, some 1⟩).1.counter
          = (RotaryEncoder.init 1 5 6 (some 26)).counter)) :=
  ⟨by decide,
    c6_debounce_from_last_accepted (RotaryEncoder.init 1 5 6 (some 26)) 1 1 0
      (by decide)⟩

/-- C7 counterexample: In the spec's own scenario (encoder 1 at counter
50, debounced press accepted at `t = 1.0`), the accepting tick emits *two*
events — one `encoder_change` (for the reset) and one
`encoder_button_press` — not the claimed "one event". -/
theorem c7_counterexample :
    0 < c7_enc.counter ∧
    (1 : ℚ) - c7_enc.last_button_time > button_debounce_delay ∧
    (c7_enc.update 1 ⟨some 0, some 0, some 0⟩).2.length = 2 ∧
    (c7_enc.update 1 ⟨some 0, some 0, some 0⟩).2.countP
        Event.isEncoderButtonPress = 1 ∧
    (c7_enc.update 1 ⟨some 0, some 0, some 0⟩).2.countP
        Event.isEncoderChange = 1 := by
  with_unfolding_all decide

/-- C7 amended: No two accepted press edges occur within the 0.2 s
button window: from a published positive counter with the button released,
a press edge at `t1` past the window is accepted — counter reset to 0,
emitting one `encoder_change` (for the reset) and one
`encoder_button_press` — the release at `t2` emits nothing, and a second
press attempt at `t3` with `t3 - t1 ≤ 0.2` is suppressed: no event, no
reset (`last_button_time` still `t1`). -/
theorem c7_press_window (e : RotaryEncoder) (t1 t2 t3 : ℚ) (a : Nat)
    (hsync : e.last_counter = e.counter) (hpos : 0 < e.counter)
    (ha : a = e.last_a) (htr : pin_truthy e.pin_button = true)
    (hlast : e.last_button = 1)
    (h1 : t1 - e.last_button_time > button_debounce_delay)
    (h3 : t3 - t1 ≤ button_debounce_delay) :
    (e.update t1 ⟨some a, some 0, some 0⟩).2
      = [Event.encoderChange e.encoder_id 0 "left",
         Event.encoderButtonPress e.encoder_id] ∧
    (e.update t1 ⟨some a, some 0, some 0⟩).1.counter = 0 ∧
    ((e.update t1 ⟨some a, some 0, some 0⟩).1.update t2
        ⟨some a, some 0, some 1⟩).2 = [] ∧
    (((e.update t1 ⟨some a, some 0, some 0⟩).1.update t2
        ⟨some a, some 0, some 1⟩).1.update t3 ⟨some a, some 0, some 0⟩).2
      = [] ∧
    (((e.update t1 ⟨some a, some 0, some 0⟩).1.update t2
        ⟨some a, some 0, some 1⟩).1.update t3
        ⟨some a, some 0, some 0⟩).1.counter = 0 ∧
    (((e.update t1 ⟨some a, some 0, some 0⟩).1.update t2
        ⟨some a, some 0, some 1⟩).1.update t3
        ⟨some a, some 0, some 0⟩).1.last_button_time = t1 := by
  subst ha
  have hne : ¬ (0 : Int) = e.last_counter := by omega
  have hdir : ¬ (0 : Int) - e.last_counter > 0 := by omega
  have hu1 : e.update t1 ⟨some e.last_a, some 0, some 0⟩
      = ({ e with
            counter := 0
            last_counter := 0
            last_b := 0
            last_button := 0
            last_button_time := t1 },
         [Event.encoderChange e.encoder_id 0 "left",
          Event.encoderButtonPress e.encoder_id]) := by
    simp only [RotaryEncoder.update, htr, if_true, ne_eq, not_true_eq_false,
      false_and, if_false, hlast, true_and, and_true, eq_self_iff_true,
      if_pos h1, if_pos hne, if_neg hdir]
    rfl
  rw [hu1]
  have hu2 : ({ e with
        counter := 0
        last_counter := 0
        last_b := 0
        last_button := 0
        last_button_time := t1 } :
          RotaryEncoder).update t2 ⟨some e.last_a, some 0, some 1⟩
      = ({ e with
            counter := 0
            last_counter := 0
            last_b := 0
            last_button := 1
            last_button_time := t1 }, []) := by
    simp [RotaryEncoder.update, htr]
  rw [hu2]
  have h3w : ¬ t3 - t1 > button_debounce_delay := by
    simp only [not_lt, gt_iff_lt]
    exact h3
  have hu3 : ({ e with
        counter := 0
        last_counter := 0
        last_b := 0
        last_button := 1
        last_button_time := t1 } :
          RotaryEncoder).update t3 ⟨some e.last_a, some 0, some 0⟩
      = ({ e with
            counter := 0
            last_counter := 0
            last_b := 0
            last_button := 0
            last_button_time := t1 }, []) := by
    simp [RotaryEncoder.update, htr, h3w]
  rw [hu3]
  exact ⟨rfl, rfl, rfl, rfl, rfl, rfl⟩

/-- Witness for C7 amended: the spec scenario `t1 = 1.0`, release at
`t2 = 1.05`, second attempt at `t3 = 1.1` on `c7_enc`. -/
theorem c7_press_window_witness :
    (c7_enc.update 1 ⟨some 0, some 0, some 0⟩).2
      = [Event.encoderChange c7_enc.encoder_id 0 "left",
         Event.encoderButtonPress c7_enc.encoder_id] ∧
    (c7_enc.update 1 ⟨some 0, some 0, some 0⟩).1.counter = 0 ∧
    ((c7_enc.update 1 ⟨some 0, some 0, some 0⟩).1.update (21/20)
        ⟨some 0, some 0, some 1⟩).2 = [] ∧
    (((c7_enc.update 1 ⟨some 0, some 0, some 0⟩).1.update (21/20)
        ⟨some 0, some 0, some 1⟩).1.update (11/10)
        ⟨some 0, some 0, some 0⟩).2 = [] ∧
    (((c7_enc.update 1 ⟨some 0, some 0, some 0⟩).1.update (21/20)
        ⟨some 0, some 0, some 1⟩).1.update (11/10)
        ⟨some 0, some 0, some 0⟩).1.counter = 0 ∧
    (((c7_enc.update 1 ⟨some 0, some 0, some 0⟩).1.update (21/20)
        ⟨some 0, some 0, some 1⟩).1.update (11/10)
        ⟨some 0, some 0, some 0⟩).1.last_button_time = 1 :=
  c7_press_window c7_enc 1 (21/20) (11/10) 0 (by decide) (by decide)
    (by decide) (by decide) (by decide) (by with_unfolding_all decide)
    (by with_unfolding_all decide)

/-- C2 counterexample: The socket-server decoder has no clamp: from the
freshly constructed encoder 1 (counter 0), a single accepted backward step
(A rising with B high) at `t = 1` drives the counter to −1 — and even emits
`encoder_change` with the negative value. -/
theorem c2_counterexample :
    (RotaryEncoder.init 1 5 6 (some 26)).counter = 0 ∧
    ((RotaryEncoder.init 1 5 6 (some 26)).update 1
        ⟨some 1, some 1, some 1⟩).1.counter = -1 ∧
    ((RotaryEncoder.init 1 5 6 (some 26)).update 1
        ⟨some 1, some 1, some 1⟩).2
      = [Event.encoderChange 1 (-1) "left"] := by
  with_unfolding_all decide

/-- Step lemma for C2: one `inputs_debug` update preserves counter
non-negativity (the quadrature branch clamps at 0, the button branch resets
to 0, every other branch leaves the counter alone). -/
theorem inputs_debug_step_nonneg (e : InputsDebug.RotaryEncoder)
    (h : 0 ≤ e.counter) (t : ℚ) (r : EncoderReads) :
    0 ≤ (e.update t r).counter := by
  rcases r with ⟨ra, rb, rbtn⟩
  rcases ra with _ | a
  · simpa [InputsDebug.RotaryEncoder.update] using h
  rcases rb with _ | b
  · simpa [InputsDebug.RotaryEncoder.update] using h
  rcases hbtn : (if pin_truthy e.pin_button then rbtn else some 1)
    with _ | btn
  · simpa [InputsDebug.RotaryEncoder.update, hbtn] using h
  · simp only [InputsDebug.RotaryEncoder.update, hbtn]
    split_ifs <;> omega

/-- C2 amended: The counter non-negativity invariant holds for the
`inputs_debug.py` encoder (whose `update` clamps at 0): starting from any
non-negative counter, the counter is non-negative after every sequence of
`update` calls.  The `socket_server.py` encoder has no such clamp and its
counter goes negative (see the counterexample). -/
theorem c2_inputs_debug_counter_nonneg (e : InputsDebug.RotaryEncoder)
    (h : 0 ≤ e.counter) (ticks : List (ℚ × EncoderReads)) :
    0 ≤ (e.run ticks).counter := by
  induction ticks generalizing e with
  | nil => simpa [InputsDebug.RotaryEncoder.run] using h
  | cons p ps ih =>
    rw [InputsDebug.RotaryEncoder.run, List.foldl_cons]
    exact ih _ (inputs_debug_step_nonneg e h p.1 p.2)

/-- Witness for C2 amended: the freshly constructed `inputs_debug` encoder 1
driven backward once from counter 0 (accepted step, clamped) stays at a
non-negative counter. -/
theorem c2_inputs_debug_counter_nonneg_witness :
    0 ≤ ((InputsDebug.RotaryEncoder.init 1 4 17 (some 19)).run
        [(1, ⟨some 1, some 1, some 1⟩)]).counter :=
  c2_inputs_debug_counter_nonneg
    (InputsDebug.RotaryEncoder.init 1 4 17 (some 19)) (by decide)
    [(1, ⟨some 1, some 1, some 1⟩)]

/-- C3 counterexample: A failed button line read does *not* hold the
prior logical state: from `last_state = True` (released), the failure maps
to status `None`, which differs from the stored state, so `check_and_emit`
emits a synthesized `key_change` with `active = None` and overwrites the
stored state with `None`. -/
theorem c3_counterexample :
    (ButtonMonitor.check_and_emit ⟨some true⟩ none).2
      = [Event.keyChange none] ∧
    (ButtonMonitor.check_and_emit ⟨some true⟩ none).1.last_state = none := by
  decide

/-- C3 amended: Only the encoders are fail-safe: any failed `GPIO.input`
read aborts `RotaryEncoder.update` with the state retained and no event.
The button and switch monitors instead map a failed read to a `None` status
that participates in ordinary change detection: if it differs from the
stored state they emit a change event with `active = None` (and the button
monitor overwrites its stored state with `None`). -/
theorem c3_read_failure (e : RotaryEncoder) (t : ℚ) (r : EncoderReads)
    (m : ButtonMonitor) (b : Bool) (sm : SwitchMonitor) (b18 : Bool)
    (rswitch : SwitchReads)
    (henc : r.a = none ∨ r.b = none ∨
      (pin_truthy e.pin_button = true ∧ r.button = none))
    (hm : m.last_state = some b)
    (hsw : sm.last_states.g18.status = some b18)
    (hg18 : rswitch.g18 = "Error") :
    e.update t r = (e, []) ∧
    m.check_and_emit none
      = ({ last_state := none }, [Event.keyChange none]) ∧
    Event.switchChange "green" none ∈ (sm.check_and_emit rswitch).2 := by
  refine ⟨?_, ?_, ?_⟩
  · rcases r with ⟨ra, rb, rbtn⟩
    rcases henc with ha | hb | ⟨htr2, hbt⟩
    · simp only at ha
      subst ha
      simp [RotaryEncoder.update]
    · simp only at hb
      subst hb
      rcases ra with _ | a <;> simp [RotaryEncoder.update]
    · simp only at htr2 hbt
      subst hbt
      rcases ra with _ | a <;> rcases rb with _ | b <;>
        simp [RotaryEncoder.update, htr2]
  · simp [ButtonMonitor.check_and_emit, get_button_status, hm]
  · simp [SwitchMonitor.check_and_emit, get_switch_states, switch_status,
      hg18, hsw]

/-- Witness for C3 amended at concrete states: encoder 1 with a failed
phase-A read, the button monitor holding `True` with a failed read, and a
switch monitor holding green = released with a failed (sysfs `'Error'`)
green read. -/
theorem c3_read_failure_witness :
    (RotaryEncoder.init 1 5 6 (some 26)).update 1 ⟨none, some 0, some 0⟩
      = (RotaryEncoder.init 1 5 6 (some 26), []) ∧
    ButtonMonitor.check_and_emit ⟨some true⟩ none
      = ({ last_state := none }, [Event.keyChange none]) ∧
    Event.switchChange "green" none ∈
      (SwitchMonitor.check_and_emit
        ⟨⟨⟨"1", some true⟩, ⟨"1", some true⟩, ⟨"1", some true⟩⟩⟩
        ⟨"Error", "1", "1"⟩).2 :=
  c3_read_failure (RotaryEncoder.init 1 5 6 (some 26)) 1
    ⟨none, some 0, some 0⟩ ⟨some true⟩ true
    ⟨⟨⟨"1", some true⟩, ⟨"1", some true⟩, ⟨"1", some true⟩⟩⟩ true
    ⟨"Error", "1", "1"⟩ (Or.inl rfl) rfl rfl rfl

/-- C5 counterexample: The button monitor applies no debounce window at
all — `check_and_emit` does not even consult a clock — so two back-to-back
raw toggles (consecutive poll iterations are 0.1 ms apart, far inside any
200 ms window) each immediately publish a state change event. -/
theorem c5_counterexample :
    (ButtonMonitor.check_and_emit ⟨some true⟩ (some 0)).2
      = [Event.keyChange (some false)] ∧
    ((ButtonMonitor.check_and_emit ⟨some true⟩ (some 0)).1.check_and_emit
        (some 1)).2 = [Event.keyChange (some true)] := by
  decide

/-- C5 amended: The push button and the three switches are *not*
debounced: their monitors take no timestamp, the published state always
equals the status derived from the current raw read, and a change event is
emitted exactly when that status differs from the stored one — every raw
transition is published immediately, regardless of spacing.  (Only the
encoder paths have debounce windows: 1 ms for phase edges, 200 ms for the
encoder push-buttons.) -/
theorem c5_no_debounce (m : ButtonMonitor) (r : Option Nat)
    (sm : SwitchMonitor) (rs : SwitchReads) :
    (m.check_and_emit r).1.last_state = get_button_status r ∧
    ((m.check_and_emit r).2 ≠ [] ↔ get_button_status r ≠ m.last_state) ∧
    (sm.check_and_emit rs).1.last_states = get_switch_states rs ∧
    ((sm.check_and_emit rs).2 = [] ↔
      switch_status rs.g18 = sm.last_states.g18.status ∧
      switch_status rs.g20 = sm.last_states.g20.status ∧
      switch_status rs.g21 = sm.last_states.g21.status) := by
  refine ⟨?_, ?_, rfl, ?_⟩
  · simp only [ButtonMonitor.check_and_emit]
    split_ifs with h
    · rfl
    · exact (not_ne_iff.mp h).symm
  · simp only [ButtonMonitor.check_and_emit]
    split_ifs with h <;> simp [h]
  · simp only [SwitchMonitor.check_and_emit, get_switch_states]
    split_ifs with h1 h2 h3 <;> simp_all

/-- Step lemma for C8 (button): a quiet button read emits nothing and
leaves the monitor untouched. -/
theorem button_quiet_step (m : ButtonMonitor) (rb : Option Nat)
    (h : get_button_status rb = m.last_state) :
    m.check_and_emit rb = (m, []) := by
  simp [ButtonMonitor.check_and_emit, h]

/-- Step lemma for C8 (switches): quiet switch reads emit nothing. -/
theorem switch_quiet_step (sm : SwitchMonitor) (rs : SwitchReads)
    (h18 : switch_status rs.g18 = sm.last_states.g18.status)
    (h20 : switch_status rs.g20 = sm.last_states.g20.status)
    (h21 : switch_status rs.g21 = sm.last_states.g21.status) :
    (sm.check_and_emit rs).2 = [] := by
  simp [SwitchMonitor.check_and_emit, get_switch_states, h18, h20, h21]

/-- Step lemma for C8 (one encoder): a quiet encoder emits nothing and
stays quiet for the same reads. -/
theorem encoder_quiet_step (e : RotaryEncoder) (t : ℚ) (r : EncoderReads)
    (h : EncoderQuiet e r) :
    (e.update t r).2 = [] ∧ EncoderQuiet (e.update t r).1 r := by
  obtain ⟨hc, ha, hbtn⟩ := h
  rcases r with ⟨ra, rb, rbtn⟩
  simp only at ha
  subst ha
  rcases rb with _ | b
  · constructor
    · simp [RotaryEncoder.update]
    · have hst : ((e.update t ⟨some e.last_a, none, rbtn⟩).1) = e := by
        simp [RotaryEncoder.update]
      rw [hst]
      exact ⟨hc, rfl, hbtn⟩
  · have hquad : ¬ (e.last_a ≠ e.last_a ∧
        t - e.last_encoder_time > encoder_debounce_delay) := by
      rintro ⟨hx, _⟩
      exact hx rfl
    cases htr : pin_truthy e.pin_button with
    | true =>
      have hb := hbtn htr
      simp only at hb
      subst hb
      have hpress : ¬ (e.last_button = 0 ∧ e.last_button = 1 ∧
          t - e.last_button_time > button_debounce_delay) := by
        rintro ⟨h0, h1, _⟩
        omega
      have hst : e.update t ⟨some e.last_a, some b, some e.last_button⟩
          = ({ e with last_b := b }, []) := by
        simp only [RotaryEncoder.update, htr, if_true, ne_eq,
          not_true_eq_false, false_and, if_false, true_and, if_neg hpress]
        simp only [if_neg (not_not_intro hc), List.append_nil]
      rw [hst]
      exact ⟨rfl, hc, rfl, hbtn⟩
    | false =>
      have hst : e.update t ⟨some e.last_a, some b, rbtn⟩
          = ({ e with last_b := b }, []) := by
        simp only [RotaryEncoder.update, htr, Bool.false_eq_true, if_false,
          ne_eq, not_true_eq_false, false_and]
        simp only [if_neg (not_not_intro hc), List.append_nil]
      rw [hst]
      exact ⟨rfl, hc, rfl, hbtn⟩

/-- Step lemma for C8 (encoder list): quiet encoders emit nothing and stay
quiet. -/
theorem encoders_quiet_step (t : ℚ) (es : List RotaryEncoder) :
    ∀ rs : List EncoderReads, EncodersQuiet es rs →
      (update_encoders t es rs).2 = [] ∧
      EncodersQuiet (update_encoders t es rs).1 rs := by
  induction es with
  | nil =>
    intro rs h
    cases rs with
    | nil => exact ⟨rfl, trivial⟩
    | cons r rs => exact h.elim
  | cons e es ih =>
    intro rs h
    cases rs with
    | nil => exact h.elim
    | cons r rs =>
      obtain ⟨h1, h2⟩ := h
      obtain ⟨e1, e2⟩ := encoder_quiet_step e t r h1
      obtain ⟨l1, l2⟩ := ih rs h2
      constructor
      · simp only [update_encoders]
        rw [e1, l1]
        rfl
      · simp only [update_encoders]
        exact ⟨e2, l2⟩

/-- One-tick lemma for C8: under quiescent reads, a tick emits nothing and
the engine is still quiescent for the same reads. -/
theorem tick_quiet_step (s : FirmwareState) (t : ℚ) (r : TickReads)
    (h : TickQuiet s r) :
    (sample_tick s t r).2 = [] ∧ TickQuiet (sample_tick s t r).1 r := by
  obtain ⟨hb, h18, h20, h21, henc⟩ := h
  have hbu := button_quiet_step s.button_monitor r.button hb
  have hsw := switch_quiet_step s.switch_monitor r.switches h18 h20 h21
  have he := encoders_quiet_step t s.encoders r.encoders henc
  constructor
  · simp only [sample_tick, hbu, hsw, he.1, List.append_nil]
  · refine ⟨?_, rfl, rfl, rfl, ?_⟩
    · show get_button_status r.button
        = (sample_tick s t r).1.button_monitor.last_state
      simp only [sample_tick, hbu]
      exact hb
    · show EncodersQuiet (sample_tick s t r).1.encoders r.encoders
      simp only [sample_tick]
      exact he.2

/-- C8: Running a full sampling pass twice in a row with identical,
unchanged raw input levels (every read returns the level/status the engine
already stores) produces an empty event list on both passes. -/
theorem c8_sample_tick_idempotent (s : FirmwareState) (t1 t2 : ℚ)
    (r : TickReads) (h : TickQuiet s r) :
    (sample_tick s t1 r).2 = [] ∧
    (sample_tick (sample_tick s t1 r).1 t2 r).2 = [] :=
  ⟨(tick_quiet_step s t1 r h).1,
    (tick_quiet_step (sample_tick s t1 r).1 t2 r
      (tick_quiet_step s t1 r h).2).1⟩

/-- Witness for C8: the concrete quiescent engine `c8_state` sampled twice
(at `t = 1` and `t = 2`) with the matching reads `c8_reads` emits nothing
on either pass. -/
theorem c8_sample_tick_idempotent_witness :
    (sample_tick c8_state 1 c8_reads).2 = [] ∧
    (sample_tick (sample_tick c8_state 1 c8_reads).1 2 c8_reads).2 = [] :=
  c8_sample_tick_idempotent c8_state 1 2 c8_reads
    ⟨rfl, rfl, rfl, rfl, ⟨rfl, rfl, fun _ => rfl⟩, trivial⟩

end Firmware
